import Mathlib

/-
Verification of the session / paged-list behaviour of the web-team-challenge
repository, as described by its specification.  The TypeScript source is
shallowly embedded: React component state becomes explicit record passing,
asynchronous fetches become functions from the responses to the next state,
and browser localStorage becomes an explicit optional stored value.
-/

namespace WebTeamChallenge

/--
Model of a JavaScript JSON value, as produced by JSON.parse.  Numbers are
modelled as integers (the values relevant here are integral).
-/
inductive Jsonv where
  | null
  | bool (b : Bool)
  | num (n : Int)
  | str (s : String)
  | arr (elems : List Jsonv)
  | obj (fields : List (String × Jsonv))

/--
JavaScript truthiness of a JSON value: null, false, 0 and the empty string
are falsy; every object and array is truthy.
-/
def Jsonv.truthy : Jsonv → Bool
  | Jsonv.null => false
  | Jsonv.bool b => b
  | Jsonv.num n => !(n == 0)
  | Jsonv.str s => !(s == "")
  | Jsonv.arr _ => true
  | Jsonv.obj _ => true

/--
The Identity record of the specification, named as in the source
(interface UserInfo in AuthContext: username and jobTitle).
-/
structure UserInfo where
  username : String
  jobTitle : String
deriving DecidableEq

/--
The JSON object produced for a UserInfo value, with the field names and
order used by JSON.stringify on the object literal built in login and
updateUserInfo.
-/
def UserInfo.toJson (u : UserInfo) : Jsonv :=
  Jsonv.obj [("username", Jsonv.str u.username), ("jobTitle", Jsonv.str u.jobTitle)]

/--
Decoder for the Identity shape of the specification (section 3): an object
with exactly the string fields username and jobTitle.  Used to state
field-for-field equality and shape-parseability; the page code itself never
performs this check.
-/
def Jsonv.asUserInfo : Jsonv → Option UserInfo
  | Jsonv.obj [("username", Jsonv.str n), ("jobTitle", Jsonv.str t)] =>
      some (UserInfo.mk n t)
  | _ => none

/--
Abstraction of a string stored under the userInfo localStorage key, keeping
exactly the two properties the source inspects: JavaScript truthiness of the
string (only the empty string is falsy) and the outcome of JSON.parse on it.
jsonOf v stands for any non-empty string that JSON.parse maps to v (the
output of JSON.stringify always has this form); malformed stands for any
non-empty string on which JSON.parse throws.
-/
inductive StoredString where
  | emptyStr
  | jsonOf (v : Jsonv)
  | malformed

/-- Truthiness of the stored string: only the empty string is falsy. -/
def StoredString.truthy : StoredString → Bool
  | StoredString.emptyStr => false
  | _ => true

/--
The localStorage cell for the fixed key userInfo; none models an absent key
(getItem returns null).
-/
abbrev Store := Option StoredString

/--
JSON.stringify(newUserInfo) as written by login and updateUserInfo: a
non-empty string that parses back to the object.
-/
def stringifyUserInfo (u : UserInfo) : StoredString :=
  StoredString.jsonOf u.toJson

/--
The AuthProvider mount effect (AuthContext, load of the stored identity):
starting from React state null, read the userInfo key; if the stored string
is truthy, JSON.parse it and set the state to the parsed value; if parsing
throws, log and remove the key.  Returns the resulting context state
(Jsonv.null meaning absent) and the resulting store.
-/
def loadEffect (store : Store) : Jsonv × Store :=
  match store with
  | none => (Jsonv.null, none)
  | some StoredString.emptyStr => (Jsonv.null, some StoredString.emptyStr)
  | some (StoredString.jsonOf v) => (v, some (StoredString.jsonOf v))
  | some StoredString.malformed => (Jsonv.null, none)

/--
The login function of AuthProvider: builds newUserInfo from the two
arguments, sets the context state to it and writes its serialization to the
store.  The body is unconditional: no validation, no thrown error.
-/
def login (username jobTitle : String) : Jsonv × Store :=
  let newUserInfo : UserInfo := UserInfo.mk username jobTitle
  (newUserInfo.toJson, some (stringifyUserInfo newUserInfo))

/-- The logout function of AuthProvider: state null, key removed. -/
def logout : Jsonv × Store :=
  (Jsonv.null, none)

/--
The updateUserInfo function of AuthProvider: replaces the state wholesale
and rewrites the stored serialization.
-/
def updateUserInfo (updatedInfo : UserInfo) : Jsonv × Store :=
  (updatedInfo.toJson, some (stringifyUserInfo updatedInfo))

/--
The value object provided by AuthProvider: the current userInfo state and
isAuthenticated derived as the double-negation (truthiness) of it.
-/
structure AuthContextValue where
  userInfo : Jsonv
  isAuthenticated : Bool

/-- Builds the provider value from the current state, as in AuthProvider. -/
def mkAuthValue (userInfo : Jsonv) : AuthContextValue :=
  { userInfo := userInfo, isAuthenticated := userInfo.truthy }

/--
The useAuth hook: useContext yields the provider value, or none when the
component is not wrapped in AuthProvider (the context default is undefined);
in that case an Error is thrown with the fixed message.
-/
def useAuth (context : Option AuthContextValue) : Except String AuthContextValue :=
  match context with
  | none => Except.error ("useAuth must be used within an AuthProvider")
  | some ctx => Except.ok ctx

/--
isUserAuthenticated from apolloClient.ts: the double-negation of
localStorage.getItem, i.e. the key is present with a truthy (non-empty)
string.  (The server-side branch, window undefined, is outside this model:
all claims concern the browser.)
-/
def isUserAuthenticated (store : Store) : Bool :=
  match store with
  | none => false
  | some s => s.truthy

/--
getUserInfo from apolloClient.ts: parse the stored string if truthy,
returning null when absent, falsy, or unparseable (the catch branch).
-/
def getUserInfo (store : Store) : Jsonv :=
  match store with
  | none => Jsonv.null
  | some StoredString.emptyStr => Jsonv.null
  | some (StoredString.jsonOf v) => v
  | some StoredString.malformed => Jsonv.null

/--
JavaScript String.prototype.trim: remove whitespace from both ends of the
string, here computed on the character list.
-/
def trimJS (s : String) : String :=
  String.mk (((s.data.dropWhile Char.isWhitespace).reverse.dropWhile
    Char.isWhitespace).reverse)

/--
Outcome tag of an AuthBlock form submission: the validation alert (early
return), the updateUserInfo branch, or the login branch.
-/
inductive SubmitOutcome where
  | validationAlert
  | updatedExisting
  | firstLogin
deriving DecidableEq

/--
handleSubmit of AuthBlock: if either field trims to empty, alert and return
without touching context or store; otherwise call updateUserInfo with the
trimmed fields when the context already holds a (truthy) userInfo, else call
login with the trimmed fields.  Returns the outcome tag together with the
resulting context state and store.
-/
def handleSubmit (username jobTitle : String) (ctxUserInfo : Jsonv) (store : Store) :
    SubmitOutcome × Jsonv × Store :=
  if trimJS username = "" ∨ trimJS jobTitle = "" then
    (SubmitOutcome.validationAlert, ctxUserInfo, store)
  else if ctxUserInfo.truthy then
    let r := updateUserInfo (UserInfo.mk (trimJS username) (trimJS jobTitle))
    (SubmitOutcome.updatedExisting, r.1, r.2)
  else
    let r := login (trimJS username) (trimJS jobTitle)
    (SubmitOutcome.firstLogin, r.1, r.2)

/-- What the Home route renders: the gate form (AuthBlock) or the welcome page. -/
inductive HomeRender where
  | gate
  | welcome
deriving DecidableEq

/--
The Home page component: renders AuthBlock when isAuthenticated is false,
the welcome content otherwise.
-/
def renderHome (value : AuthContextValue) : HomeRender :=
  if value.isAuthenticated then HomeRender.welcome else HomeRender.gate

/--
Value of one character in a given base, as consumed by the JavaScript
parseInt digit loop (decimal digits; a-f and A-F in base 16).
-/
def digitValInBase (base : Nat) (c : Char) : Option Nat :=
  if c.isDigit then some (c.toNat - Char.toNat (Char.ofNat 48))
  else if base = 16 ∧ Char.ofNat 97 ≤ c ∧ c ≤ Char.ofNat 102 then
    some (c.toNat - 97 + 10)
  else if base = 16 ∧ Char.ofNat 65 ≤ c ∧ c ≤ Char.ofNat 70 then
    some (c.toNat - 65 + 10)
  else none

/--
JavaScript parseInt with no radix argument: skip leading whitespace, read an
optional sign, switch to base 16 after a 0x or 0X prefix, then take the
longest prefix of digits of the base; the result is NaN (modelled as none)
when that prefix is empty.
-/
def parseIntJS (s : String) : Option Int :=
  let cs0 := s.toList.dropWhile Char.isWhitespace
  let signAndRest : Int × List Char :=
    match cs0 with
    | '-' :: rest => (-1, rest)
    | '+' :: rest => (1, rest)
    | _ => (1, cs0)
  let baseAndRest : Nat × List Char :=
    match signAndRest.2 with
    | '0' :: 'x' :: rest => (16, rest)
    | '0' :: 'X' :: rest => (16, rest)
    | _ => (10, signAndRest.2)
  let base := baseAndRest.1
  let ds := baseAndRest.2.takeWhile (fun c => (digitValInBase base c).isSome)
  if ds.isEmpty then none
  else
    some (signAndRest.1 *
      ds.foldl (fun acc c => acc * Int.ofNat base + Int.ofNat ((digitValInBase base c).getD 0)) 0)

/--
The effective page number of an information page:
parseInt(searchParams.get(page) || 1).  The || default applies exactly when
the parameter is absent (getItem null) or the empty string; any other string
goes to parseInt unchanged, so a non-numeric value yields NaN (none).
-/
def pageParam (raw : Option String) : Option Int :=
  parseIntJS (match raw with
    | none => "1"
    | some s => if s = "" then "1" else s)

/-- Episode entry of a list-query character (id and name). -/
structure Episode where
  id : String
  name : String
deriving DecidableEq

/--
Character row as returned by the paginated list query (interface Character
in queries; origin and location reduced to their single name field as in the
source interface).
-/
structure Character where
  id : String
  name : String
  status : String
  species : String
  type : String
  gender : String
  originName : String
  locationName : String
  image : String
  episode : List Episode
  created : String
deriving DecidableEq

/-- Episode entry of a detail-query character. -/
structure DetailEpisode where
  id : String
  name : String
  air_date : String
  episode : String
deriving DecidableEq

/-- Origin or location record of a detail-query character. -/
structure PlaceInfo where
  name : String
  dimension : Option String
  type : Option String
deriving DecidableEq

/--
Detail record as returned by the by-id query (interface DetailedCharacter
in queries).
-/
structure DetailedCharacter where
  id : String
  name : String
  status : String
  species : String
  type : String
  gender : String
  origin : PlaceInfo
  location : PlaceInfo
  image : String
  episode : List DetailEpisode
  created : String
deriving DecidableEq

/--
Component-local state of the characters information page, one field per
useState slot; modalOpen is the open flag of useDisclosure.
-/
structure PageState where
  characters : List Character
  selectedCharacter : Option DetailedCharacter
  loading : Bool
  detailLoading : Bool
  error : Option String
  totalPages : Nat
  modalOpen : Bool
deriving DecidableEq

/-- The useState initial values of the information page (loading starts true). -/
def initialPageState : PageState :=
  { characters := [], selectedCharacter := none, loading := true,
    detailLoading := false, error := none, totalPages := 1, modalOpen := false }

/--
What the detail modal shows in its body: the loading marker when
detailLoading is set, and the detail fields when selectedCharacter is
present.
-/
structure OverlayRender where
  loadingMarker : Bool
  body : Option DetailedCharacter
deriving DecidableEq

/--
What the information page renders, following the branch order of the
component: the gate (AuthBlock), the full-screen loading state, the
full-screen error state, or the table with its rows and, when the modal flag
is set, the overlay.
-/
inductive Render where
  | authBlock
  | loadingScreen
  | errorScreen (msg : String)
  | table (rows : List Character) (overlay : Option OverlayRender)
deriving DecidableEq

/--
The render function of the information page.  The branches appear in source
order: the auth gate first (so it wins over any in-flight fetch), then
loading, then error, then the table; the modal subtree is rendered only
when the open flag is set.
-/
def renderInformationPage (isAuthenticated storageAuthenticated : Bool)
    (s : PageState) : Render :=
  if !isAuthenticated || !storageAuthenticated then Render.authBlock
  else if s.loading then Render.loadingScreen
  else
    match s.error with
    | some msg => Render.errorScreen msg
    | none =>
        Render.table s.characters
          (if s.modalOpen then
            some { loadingMarker := s.detailLoading, body := s.selectedCharacter }
           else none)

/--
Guard of the list-fetch effect: fetchCharacters runs only when both the
context flag and the storage re-check hold.
-/
def listEffectRuns (isAuthenticated storageAuthenticated : Bool) : Bool :=
  isAuthenticated && storageAuthenticated

/-- Synchronous prefix of the list fetch: setLoading(true). -/
def startListFetch (s : PageState) : PageState :=
  { s with loading := true }

/--
Completion of the list fetch: on success replace the rows and the total
page count with the response (the || fallbacks to the empty list and 1 are
folded into the response pair); on failure set the shared error message; in
either case clear the loading flag (the finally block).
-/
def finishListFetch (s : PageState) (resp : Except String (List Character × Nat)) :
    PageState :=
  match resp with
  | Except.ok (results, pages) =>
      { s with characters := results, totalPages := pages, loading := false }
  | Except.error msg => { s with error := some msg, loading := false }

/-- Synchronous prefix of fetchCharacterDetails: setDetailLoading(true). -/
def startDetailFetch (s : PageState) : PageState :=
  { s with detailLoading := true }

/--
Completion of fetchCharacterDetails: on success set selectedCharacter to the
response (null folded to none by the || fallback) and only then call onOpen;
on failure set the shared error message and do not open; in either case
clear detailLoading (the finally block).
-/
def finishDetailFetch (s : PageState) (resp : Except String (Option DetailedCharacter)) :
    PageState :=
  match resp with
  | Except.ok d =>
      { s with selectedCharacter := d, modalOpen := true, detailLoading := false }
  | Except.error msg => { s with error := some msg, detailLoading := false }

/-- A complete detail fetch: the pending prefix followed by the completion. -/
def fetchCharacterDetails (s : PageState) (resp : Except String (Option DetailedCharacter)) :
    PageState :=
  finishDetailFetch (startDetailFetch s) resp

/--
A SpaceX launch row.  The cache and the page treat rows as opaque records,
so only the identifying fields are kept here; the remaining payload fields
play no role in any claim.
-/
structure Launch where
  id : String
  mission_name : String
deriving DecidableEq

/--
The merge function installed for the launches field in the InMemoryCache
type policies: concatenate the incoming page onto the existing cached list.
-/
def launchesMerge (existing incoming : List Launch) : List Launch :=
  existing ++ incoming

/-- The cached value of the launches field (none before any write). -/
structure LaunchesCacheState where
  launches : Option (List Launch)
deriving DecidableEq

/-- The cache before any query. -/
def emptyLaunchesCache : LaunchesCacheState :=
  { launches := none }

/--
apolloClient.query for GET_LAUNCHES under the configuration in
apolloClient.ts.  keyArgs: false stores the launches field under a single
cache key for every variable assignment, so once a value is cached any later
query, whatever its limit and offset, is a cache hit; the default
fetchPolicy cache-first then answers from the cache without a network
request.  On a miss the network response is merged into the cache with
launchesMerge (existing defaulted to the empty list) and the merged list is
returned.  The network argument is the response the endpoint would give for
the current variables.
-/
def queryLaunches (cache : LaunchesCacheState) (network : List Launch) :
    List Launch × LaunchesCacheState :=
  match cache.launches with
  | some cached => (cached, cache)
  | none =>
      let merged := launchesMerge [] network
      (merged, { launches := some merged })

/--
The launches page scenario of the specification: mount on page 1 (the list
effect queries and setLaunches replaces the rows), then navigate to page 2
(the offset change re-runs the effect against the now-populated cache).
Returns the row sets rendered for page 1 and for page 2; network1 and
network2 are the responses the endpoint would give for the two pages.
-/
def launchesAfterTwoPages (network1 network2 : List Launch) :
    List Launch × List Launch :=
  let r1 := queryLaunches emptyLaunchesCache network1
  let r2 := queryLaunches r1.2 network2
  (r1.1, r2.1)

/-- Sample character used for concrete evaluations. -/
def sampleCharacter : Character :=
  { id := "1", name := "Rick Sanchez", status := "Alive", species := "Human",
    type := "", gender := "Male", originName := "Earth (C-137)",
    locationName := "Citadel of Ricks", image := "rick.png", episode := [],
    created := "2017-11-04" }

/-- Sample detail record used for concrete evaluations. -/
def sampleDetail : DetailedCharacter :=
  { id := "1", name := "Rick Sanchez", status := "Alive", species := "Human",
    type := "", gender := "Male",
    origin := { name := "Earth (C-137)", dimension := some "C-137", type := some "Planet" },
    location := { name := "Citadel of Ricks", dimension := none, type := some "Space station" },
    image := "rick.png", episode := [], created := "2017-11-04" }

/--
Page state right after a successful list fetch: one row, nothing selected,
no error, modal closed.
-/
def freshTableState : PageState :=
  { characters := [sampleCharacter], selectedCharacter := none, loading := false,
    detailLoading := false, error := none, totalPages := 1, modalOpen := false }

/-- Sample launches used for concrete evaluations. -/
def sampleLaunch1 : Launch :=
  { id := "1", mission_name := "FalconSat" }

/-- Second sample launch, an item of page 2. -/
def sampleLaunch2 : Launch :=
  { id := "11", mission_name := "CRS-1" }

/--
C1: evaluation of the launches list pipeline at the failing input.  Page 1
is fetched (the network returns the single row sampleLaunch1) and the page
renders it; navigating to page 2 (the network would return sampleLaunch2)
re-runs the query, but the configured cache answers it with the page-1 rows,
so the rendered row set is not the page-2 item set and a row of the previous
page persists; moreover the installed merge function itself accumulates
pages rather than replacing them.  This contradicts the claim that every
list fetch re-creates the rendered page wholesale from the items returned
for the requested page.
-/
theorem launches_page2_rows_are_page1_rows :
    (launchesAfterTwoPages [sampleLaunch1] [sampleLaunch2]).1 = [sampleLaunch1] ∧
    (launchesAfterTwoPages [sampleLaunch1] [sampleLaunch2]).2 = [sampleLaunch1] ∧
    (launchesAfterTwoPages [sampleLaunch1] [sampleLaunch2]).2 ≠ [sampleLaunch2] ∧
    launchesMerge [sampleLaunch1] [sampleLaunch2] ≠ [sampleLaunch2] := by
  refine ⟨rfl, rfl, by decide, by decide⟩

/--
C2 counterexample: with rows rendered (table shown) and no prior error, a
failing detail fetch writes the shared error slot and the page then renders
the full-screen error branch: the list rows are no longer rendered and no
overlay with an inline error is shown, contradicting the claim that the
overlay stays open and the rows remain rendered.
-/
theorem detail_error_hides_table_counterexample :
    renderInformationPage true true freshTableState =
      Render.table [sampleCharacter] none ∧
    renderInformationPage true true
        (fetchCharacterDetails freshTableState (Except.error ("boom"))) =
      Render.errorScreen ("boom") :=
  ⟨rfl, rfl⟩

/--
C2 (amended): the list and detail fetches share the single error slot of the
page.  A failing detail fetch leaves the fetched data (the list rows and the
selected detail record) unchanged in component state but sets the shared
error message, and when no list fetch is in flight the page then renders the
full-screen error instead of the table and overlay.
-/
theorem detail_error_shares_error_state (s : PageState) (msg : String)
    (hl : s.loading = false) :
    (fetchCharacterDetails s (Except.error msg)).characters = s.characters ∧
    (fetchCharacterDetails s (Except.error msg)).selectedCharacter = s.selectedCharacter ∧
    (fetchCharacterDetails s (Except.error msg)).error = some msg ∧
    renderInformationPage true true (fetchCharacterDetails s (Except.error msg)) =
      Render.errorScreen msg := by
  refine ⟨rfl, rfl, rfl, ?_⟩
  simp [fetchCharacterDetails, finishDetailFetch, startDetailFetch,
    renderInformationPage, hl]

/--
Witness for the amended C2 theorem at the concrete fresh table state and the
message boom.
-/
theorem detail_error_shares_error_state_witness :
    freshTableState.loading = false ∧
    ((fetchCharacterDetails freshTableState (Except.error ("boom"))).characters =
        freshTableState.characters ∧
     (fetchCharacterDetails freshTableState (Except.error ("boom"))).selectedCharacter =
        freshTableState.selectedCharacter ∧
     (fetchCharacterDetails freshTableState (Except.error ("boom"))).error = some ("boom") ∧
     renderInformationPage true true
         (fetchCharacterDetails freshTableState (Except.error ("boom"))) =
       Render.errorScreen ("boom")) :=
  ⟨rfl, detail_error_shares_error_state freshTableState "boom" rfl⟩

/--
C3: evaluation of the first detail fetch for a row at its pending state.
Clicking the row sets detailLoading, but onOpen only runs after a successful
response, so while the fetch is pending the modal flag is still false and
the page renders the bare table: no overlay and no loading marker, although
the modal markup contains one guarded by detailLoading.  This contradicts
the claim that the overlay is open with a loading marker while pending.
-/
theorem pending_first_detail_fetch_shows_no_overlay :
    (startDetailFetch freshTableState).detailLoading = true ∧
    (startDetailFetch freshTableState).modalOpen = false ∧
    renderInformationPage true true (startDetailFetch freshTableState) =
      Render.table [sampleCharacter] none ∧
    (finishDetailFetch (startDetailFetch freshTableState)
        (Except.ok (some sampleDetail))).modalOpen = true :=
  ⟨rfl, rfl, rfl, rfl⟩

/--
C4 counterexample: the navigation address with page set to the non-numeric
string abc yields NaN (none) as the effective page, not 1, because the ||
default only applies to an absent or empty parameter and parseInt of a
non-numeric string is NaN.
-/
theorem nonnumeric_page_is_nan_counterexample :
    pageParam (some ("abc")) = none ∧ pageParam (some ("abc")) ≠ some 1 := by
  refine ⟨by decide, by decide⟩

/--
C4 (amended): the effective page number is 1 when the page parameter is
absent or the empty string, and otherwise is exactly parseIntJS of the
parameter - so a positive integer parameter yields itself, while a
non-numeric parameter yields NaN (none) rather than 1, and negative or zero
values pass through unclamped.
-/
theorem effective_page_parsing (s : String) (hs : s ≠ "") :
    pageParam none = some 1 ∧ pageParam (some "") = some 1 ∧
    pageParam (some s) = parseIntJS s := by
  refine ⟨by decide, by decide, ?_⟩
  simp [pageParam, hs]

/--
Witness for the amended C4 theorem, instantiated at the non-empty parameter
string abc.
-/
theorem effective_page_parsing_witness :
    ("abc" : String) ≠ "" ∧
    (pageParam none = some 1 ∧ pageParam (some "") = some 1 ∧
     pageParam (some ("abc")) = parseIntJS "abc") :=
  ⟨by decide, effective_page_parsing "abc" (by decide)⟩

/--
C5 counterexample: the stored string with the JSON text 42 is valid JSON but
is not parseable as the Identity shape; the load effect nevertheless parses
it, sets the context state to the number 42 (which is truthy, so the result
is present rather than absent) and leaves the stored value in place instead
of purging it.
-/
theorem wrong_shape_loaded_not_purged_counterexample :
    Jsonv.asUserInfo (Jsonv.num 42) = none ∧
    loadEffect (some (StoredString.jsonOf (Jsonv.num 42))) =
      (Jsonv.num 42, some (StoredString.jsonOf (Jsonv.num 42))) ∧
    (loadEffect (some (StoredString.jsonOf (Jsonv.num 42)))).1.truthy = true :=
  ⟨rfl, rfl, rfl⟩

/--
C5 (amended): only a non-empty stored value on which JSON.parse throws is
treated as absent and purged, and the subsequent load then finds no stored
value and is also absent.  A stored value that is valid JSON of the wrong
shape is parsed and loaded as-is without purging, and an empty stored string
is treated as absent but left in place.
-/
theorem malformed_store_purged_selfhealing :
    loadEffect (some StoredString.malformed) = (Jsonv.null, none) ∧
    loadEffect (loadEffect (some StoredString.malformed)).2 = (Jsonv.null, none) :=
  ⟨rfl, rfl⟩

/--
C6: round-trip.  For every Identity with non-empty displayName (username)
and title (jobTitle), saving it through login and reloading the context from
the store yields the same identity: the reloaded state is exactly the saved
JSON object and decodes field-for-field to the identity that was saved.
-/
theorem identity_roundtrip (n t : String) (_hn : n ≠ "") (_ht : t ≠ "") :
    (loadEffect (login n t).2).1 = (UserInfo.mk n t).toJson ∧
    Jsonv.asUserInfo (loadEffect (login n t).2).1 = some (UserInfo.mk n t) :=
  ⟨rfl, rfl⟩

/-- Witness for the round-trip theorem at the identity ana / eng. -/
theorem identity_roundtrip_witness :
    (("ana" : String) ≠ "" ∧ ("eng" : String) ≠ "") ∧
    ((loadEffect (login "ana" "eng").2).1 = (UserInfo.mk "ana" "eng").toJson ∧
     Jsonv.asUserInfo (loadEffect (login "ana" "eng").2).1 =
       some (UserInfo.mk "ana" "eng")) :=
  ⟨⟨by decide, by decide⟩, identity_roundtrip "ana" "eng" (by decide) (by decide)⟩

/--
C7: a gate-form submission with either field empty after trimming only
raises the validation alert: the context state and the stored identity are
returned unchanged and neither login nor updateUserInfo is called; when the
context was unauthenticated the home route therefore still renders the gate.
-/
theorem empty_submit_is_noop (username jobTitle : String) (ctx : Jsonv) (store : Store)
    (h : trimJS username = "" ∨ trimJS jobTitle = "") :
    handleSubmit username jobTitle ctx store =
      (SubmitOutcome.validationAlert, ctx, store) ∧
    (ctx = Jsonv.null → renderHome (mkAuthValue ctx) = HomeRender.gate) := by
  constructor
  · unfold handleSubmit
    rw [if_pos h]
  · intro hc
    subst hc
    rfl

/--
Witness for the empty-submission theorem: whitespace username, unauthenticated
context, empty store.
-/
theorem empty_submit_is_noop_witness :
    (trimJS "  " = "" ∨ trimJS "eng" = "") ∧
    (handleSubmit "  " "eng" Jsonv.null none =
       (SubmitOutcome.validationAlert, Jsonv.null, none) ∧
     (Jsonv.null = Jsonv.null → renderHome (mkAuthValue Jsonv.null) = HomeRender.gate)) :=
  ⟨Or.inl (by decide), empty_submit_is_noop "  " "eng" Jsonv.null none (Or.inl (by decide))⟩

/--
C8: login unconditionally constructs the identity object from its two
arguments, sets the context state to it and writes its serialization to the
store.  The function is total and performs no validation, so with an empty
field it neither rejects nor raises: the same set-and-save happens, and the
resulting context is even authenticated, since a plain object is truthy.
-/
theorem login_sets_and_saves (username jobTitle : String) :
    (login username jobTitle).1 = (UserInfo.mk username jobTitle).toJson ∧
    (login username jobTitle).2 =
      some (stringifyUserInfo (UserInfo.mk username jobTitle)) ∧
    (mkAuthValue (login username jobTitle).1).isAuthenticated = true :=
  ⟨rfl, rfl, rfl⟩

/--
C9: identity presence is re-verified against both the context and storage.
Whenever the identity is absent in the context (state null, e.g. after
sign-out) or absent in storage (cleared out-of-band, leaving a stale
in-memory flag), the information page renders the gate (AuthBlock) whatever
its local state - in-flight fetches included - and the list-fetch effect
does not run.
-/
theorem absent_identity_gates_list_view (authState : Jsonv) (store : Store)
    (s : PageState)
    (h : authState.truthy = false ∨ isUserAuthenticated store = false) :
    renderInformationPage (mkAuthValue authState).isAuthenticated
        (isUserAuthenticated store) s = Render.authBlock ∧
    listEffectRuns (mkAuthValue authState).isAuthenticated
        (isUserAuthenticated store) = false := by
  rcases h with h | h
  · exact ⟨by simp [renderInformationPage, mkAuthValue, h],
      by simp [listEffectRuns, mkAuthValue, h]⟩
  · exact ⟨by simp [renderInformationPage, mkAuthValue, h],
      by simp [listEffectRuns, mkAuthValue, h]⟩

/--
Witness for the gating theorem: signed-out context, empty storage, initial
page state.
-/
theorem absent_identity_gates_list_view_witness :
    (Jsonv.truthy Jsonv.null = false ∨ isUserAuthenticated none = false) ∧
    (renderInformationPage (mkAuthValue Jsonv.null).isAuthenticated
        (isUserAuthenticated none) initialPageState = Render.authBlock ∧
     listEffectRuns (mkAuthValue Jsonv.null).isAuthenticated
        (isUserAuthenticated none) = false) :=
  ⟨Or.inl rfl,
    absent_identity_gates_list_view Jsonv.null none initialPageState (Or.inl rfl)⟩

/--
C10: reading the session context through useAuth outside the provider (the
context default, undefined, is in scope) throws an Error with the fixed
message rather than returning an absent identity.
-/
theorem useAuth_outside_provider_throws :
    useAuth none = Except.error ("useAuth must be used within an AuthProvider") :=
  rfl

end WebTeamChallenge
